import Mathlib

/-!
# Verification of the exo-alt real-time collaboration layer

Shallow embedding of the client-side real-time collaboration code:

* `src/src/lib/realtime/types.ts` — the wire message vocabulary,
* `src/src/lib/realtime/RealtimeClient.ts` — the Connection Manager
  (connect, send, subscribe/dispatch, heartbeat, reconnect with backoff),
* `src/unnamed/part_004` (RealtimeContext/Provider) — the client-side
  projection layer (optimistic selection, conflict rollback, authoritative
  `selection_state` replacement).

JavaScript `Map`s are modelled as insertion-ordered association lists with
`Map.set` replacing in place, `Map.delete` removing the entry.  JavaScript
string-truthiness (`x || y` falls through on `""` and `null`/`undefined`)
is modelled explicitly by `jsTruthy`/`jsOr`.  Handler `Set`s are modelled
as duplicate-free insertion-ordered lists.  Possibly-throwing operations
(`ws.send`, subscriber callbacks) take an explicit oracle telling whether
the call throws, and `try { … } catch {}` is translated as running the
call and discarding its outcome.
-/

namespace Exo

/-- JS truthiness of an optional string: `undefined`/`null` and `""` are falsy. -/
def jsTruthy : Option String → Bool
  | none => false
  | some s => s ≠ ""

/-- JS `a || b` on optional strings. -/
def jsOr (a b : Option String) : Option String :=
  if jsTruthy a then a else b

/-! ## Insertion-ordered maps (JavaScript `Map`) -/

/-- `Map.get`: value of the first (unique) entry for `k`. -/
def mapGet {α : Type} (m : List (String × α)) (k : String) : Option α :=
  match m.find? (fun e => e.1 = k) with
  | some e => some e.2
  | none => none

/-- `Map.set`: replace in place when the key is present, else append. -/
def mapSet {α : Type} (m : List (String × α)) (k : String) (v : α) :
    List (String × α) :=
  match m with
  | [] => [(k, v)]
  | e :: rest =>
      if e.1 = k then (k, v) :: rest else e :: mapSet rest k v

/-- `Map.delete`: remove the entry for `k`. -/
def mapDelete {α : Type} (m : List (String × α)) (k : String) :
    List (String × α) :=
  m.filter (fun e => e.1 ≠ k)

/-! ## Wire vocabulary (`types.ts`) -/

/-- `CameraState` of `types.ts`: position/target 3-vectors, zoom, timestamp.
Numeric components are modelled as integers; no claim computes with them. -/
structure CameraState where
  position : Int × Int × Int
  target : Int × Int × Int
  zoom : Int
  timestamp : Int
  deriving DecidableEq, Repr

/-- `UserPresence` of `types.ts`. -/
structure UserPresence where
  id : String
  name : String
  color : String
  joinedAt : Int
  lastSeen : Int
  selectedPlanetId : Option String := none
  isViewingPlanet : Option String := none
  deriving DecidableEq, Repr

/-- `RealtimeClientMessage`: the client → server message variants. -/
inductive ClientMessage where
  | join (roomId : String) (user : UserPresence)
  | leave (userId : String)
  | select (planetId userId : String)
  | unselect (planetId userId : String)
  | joinViewer (planetId userId : String)
  | leaveViewer (planetId userId : String)
  | camera (planetId : String) (cam : CameraState) (userId : String)
  | heartbeat (userId : String) (ts : Int)
  deriving DecidableEq, Repr

/-- `RealtimeServerMessage`: the server → client message variants. -/
inductive ServerMessage where
  | presence (users : List UserPresence)
  | conflict (planetId lockedBy : String) (reason : Option String)
  | ack (op : String) (ts : Option Int)
  | error (op : Option String) (code : Option String) (message : String)
  | selectionState (selected : List (String × List String))
  | viewerCameras (planetId : String) (cameras : List (String × CameraState))
  | camera (planetId : String) (cam : CameraState) (userId : String)
  deriving DecidableEq, Repr

/-- The `type` tag of a server message, as on the wire. -/
def ServerMessage.tag : ServerMessage → String
  | .presence _ => "presence"
  | .conflict _ _ _ => "conflict"
  | .ack _ _ => "ack"
  | .error _ _ _ => "error"
  | .selectionState _ => "selection_state"
  | .viewerCameras _ _ => "viewer_cameras"
  | .camera _ _ _ => "camera"

/-! ## Projection layer (`part_004`, RealtimeProvider)

Only the pieces of provider state that the selection claims touch are
carried: `selectedPlanets`, `lastSelectAttemptRef` and `lastConflict`. -/

/-- `ConflictInfo` of `types.ts`. -/
structure ConflictInfo where
  planetId : String
  lockedBy : String
  reason : Option String
  deriving DecidableEq, Repr

/-- Projection-layer state of `RealtimeProvider` relevant to selection. -/
structure ProjState where
  selectedPlanets : List (String × List String)
  lastSelectAttempt : Option String
  lastConflict : Option ConflictInfo
  deriving DecidableEq, Repr

/-- `selectPlanet` of `part_004` (lines 148–167): optimistically add self to
the local `selectedPlanets` entry (no duplicate), record the attempted
planet id, and send `select`.  `me` is `client.getCurrentUser()?.id`;
when the client or user is absent the action returns without effect. -/
def selectPlanet (me : Option String) (planetId : String) (st : ProjState) :
    ProjState × List ClientMessage :=
  match me with
  | none => (st, [])
  | some uid =>
      let list := (mapGet st.selectedPlanets planetId).getD []
      let list' := if list.contains uid then list else list ++ [uid]
      ({ st with
          selectedPlanets := mapSet st.selectedPlanets planetId list',
          lastSelectAttempt := some planetId },
        [ClientMessage.select planetId uid])

/-- The `conflict` subscriber of `part_004` (lines 116–131): when the
conflict's planet id matches the outstanding select attempt (JS-truthy
guard on the ref), remove self from the local entry (delete it when it
becomes empty), set `lastConflict`, and clear the attempt ref. -/
def onConflict (me : Option String) (planetId lockedBy : String)
    (reason : Option String) (st : ProjState) : ProjState :=
  match me with
  | none => st
  | some uid =>
      if jsTruthy st.lastSelectAttempt ∧ some planetId = st.lastSelectAttempt then
        let list := ((mapGet st.selectedPlanets planetId).getD []).filter
          (fun u => u ≠ uid)
        let sel :=
          if list.isEmpty then mapDelete st.selectedPlanets planetId
          else mapSet st.selectedPlanets planetId list
        { st with
            selectedPlanets := sel,
            lastConflict := some ⟨planetId, lockedBy, reason⟩,
            lastSelectAttempt := none }
      else st

/-- The `selection_state` subscriber of `part_004` (lines 76–82): build a
fresh map from the message's entries and install it wholesale. -/
def onSelectionState (selected : List (String × List String))
    (st : ProjState) : ProjState :=
  let m := selected.foldl (fun acc e => mapSet acc e.1 e.2) []
  { st with selectedPlanets := m }

/-! ## Connection Manager (`RealtimeClient.ts`)

The client's transport handle `this.ws` is modelled by its ready state
(`none` = the field is `null`).  Handler `Set`s hold opaque handler
identities (`Nat`), insertion-ordered and duplicate-free.  Timers are
modelled by presence: `heartbeatOn` for the heartbeat interval,
`reconnectTimer` holding the pending delay.  `orphans` counts sockets that
were detached from `this.ws` while not yet closed — their `onclose`
callbacks still fire against the client later.  The local `Storage` is an
association list. -/

/-- `WebSocket.readyState`. -/
inductive WsReady where
  | connecting
  | opened
  | closing
  | closed
  deriving DecidableEq, Repr

/-- Observable effects of a Connection Manager step: wire transmissions,
lifecycle-listener notifications, subscriber invocations (with a marker
when the subscriber threw), and reconnect-delay schedulings. -/
inductive Out where
  | sent (m : ClientMessage)
  | notifiedConnected (h : Nat)
  | notifiedDisconnected (h : Nat)
  | invoked (h : Nat) (m : ServerMessage)
  | handlerThrew (h : Nat)
  | scheduledDelay (d : Nat)
  deriving DecidableEq, Repr

/-- `HEARTBEAT_INTERVAL_MS` of `RealtimeClient.ts`. -/
def HEARTBEAT_INTERVAL_MS : Nat := 30000

/-- `RECONNECT_BASE_DELAY_MS` of `RealtimeClient.ts`. -/
def RECONNECT_BASE_DELAY_MS : Nat := 1000

/-- `RECONNECT_MAX_DELAY_MS` of `RealtimeClient.ts`. -/
def RECONNECT_MAX_DELAY_MS : Nat := 15000

/-- The mutable fields of a `RealtimeClient` instance. -/
structure ClientState where
  ws : Option WsReady
  roomId : Option String
  user : Option UserPresence
  messageQueue : List ClientMessage
  handlers : List (String × List Nat)
  connectedHandlers : List Nat
  disconnectedHandlers : List Nat
  heartbeatOn : Bool
  reconnectTimer : Option Nat
  reconnectAttempts : Nat
  storage : List (String × String)
  orphans : Nat
  deriving DecidableEq, Repr

/-- A freshly constructed `RealtimeClient` (constructor, lines 47–52). -/
def initClient (roomId : Option String) (storage : List (String × String)) :
    ClientState :=
  { ws := none, roomId := roomId, user := none, messageQueue := []
    handlers := [], connectedHandlers := [], disconnectedHandlers := []
    heartbeatOn := false, reconnectTimer := none, reconnectAttempts := 0
    storage := storage, orphans := 0 }

/-- `isConnected()`: `this.ws?.readyState === WebSocket.OPEN`. -/
def isConnected (st : ClientState) : Bool :=
  st.ws = some WsReady.opened

/-- `send(message)` (lines 124–135).  `txThrows` tells whether the
underlying `ws.send` call throws on this invocation; the message is
queued when the transport is not open or the transmit throws. -/
def send (txThrows : Bool) (st : ClientState) (m : ClientMessage) :
    ClientState × List Out :=
  if ¬ isConnected st then
    ({ st with messageQueue := st.messageQueue ++ [m] }, [])
  else if txThrows then
    ({ st with messageQueue := st.messageQueue ++ [m] }, [])
  else
    (st, [Out.sent m])

/-- `stopHeartbeat()` (lines 212–217). -/
def stopHeartbeat (st : ClientState) : ClientState :=
  { st with heartbeatOn := false }

/-- `startHeartbeat()` (lines 204–210): stop, then set a fresh interval. -/
def startHeartbeat (st : ClientState) : ClientState :=
  { stopHeartbeat st with heartbeatOn := true }

/-- `clearReconnect()` (lines 239–245). -/
def clearReconnect (st : ClientState) : ClientState :=
  { st with reconnectTimer := none, reconnectAttempts := 0 }

/-- `scheduleReconnect()` (lines 219–237), up to the timer firing: stop the
heartbeat; bail when a timer is already pending; otherwise read and
post-increment the attempt counter and schedule `min(base·2^attempt, cap)`. -/
def scheduleReconnect (st : ClientState) : ClientState × List Out :=
  let st1 := stopHeartbeat st
  match st1.reconnectTimer with
  | some _ => (st1, [])
  | none =>
      let attempt := st1.reconnectAttempts
      let delay := min (RECONNECT_BASE_DELAY_MS * 2 ^ attempt) RECONNECT_MAX_DELAY_MS
      ({ st1 with reconnectAttempts := attempt + 1, reconnectTimer := some delay },
        [Out.scheduledDelay delay])

/-- The flush loop of `ws.onopen` (lines 156–160): re-`send` each queued
message in order; `txThrows i` tells whether the transmit of the `i`-th
flushed message throws. -/
def flushLoop (txThrows : Nat → Bool) (i : Nat) (st : ClientState) :
    List ClientMessage → ClientState × List Out
  | [] => (st, [])
  | m :: rest =>
      let p := send (txThrows i) st m
      let q := flushLoop txThrows (i + 1) p.1 rest
      (q.1, p.2 ++ q.2)

/-- The `ws.onopen` handler body (lines 153–166): reset the attempt
counter, flush the queue FIFO, notify `connected` listeners. -/
def onOpenBody (txThrows : Nat → Bool) (st : ClientState) :
    ClientState × List Out :=
  let st1 := { st with reconnectAttempts := 0 }
  let queue := st1.messageQueue
  let st2 := { st1 with messageQueue := [] }
  let p := flushLoop txThrows 0 st2 queue
  (p.1, p.2 ++ st.connectedHandlers.map Out.notifiedConnected)

/-- The `ws.onclose` handler body (lines 184–189): notify `disconnected`
listeners, then `scheduleReconnect()`. -/
def onCloseBody (st : ClientState) : ClientState × List Out :=
  let outs := st.disconnectedHandlers.map Out.notifiedDisconnected
  let p := scheduleReconnect st
  (p.1, outs ++ p.2)

/-- `disconnect()` (lines 106–113): stop heartbeat, `ws.close()` (a socket
not yet closed becomes an orphan whose `onclose` fires later), null the
handle, cancel any pending reconnect and zero the attempt counter. -/
def disconnect (st : ClientState) : ClientState :=
  let st1 := stopHeartbeat st
  let st2 :=
    match st1.ws with
    | none => st1
    | some WsReady.closed => { st1 with ws := none }
    | some _ => { st1 with ws := none, orphans := st1.orphans + 1 }
  clearReconnect st2

/-! ### Subscriber registry and inbound dispatch -/

/-- `Set.add` on a handler set: no effect when already a member. -/
def setAdd (hs : List Nat) (h : Nat) : List Nat :=
  if hs.contains h then hs else hs ++ [h]

/-- The handler set registered for a tag (`this.handlers[type]`, empty set
when the slot is `undefined`). -/
def handlersFor (st : ClientState) (ty : String) : List Nat :=
  (mapGet st.handlers ty).getD []

/-- `subscribe(type, handler)` (lines 62–68): create the set on first use,
then `Set.add`. -/
def subscribe (st : ClientState) (ty : String) (h : Nat) : ClientState :=
  { st with handlers := mapSet st.handlers ty (setAdd (handlersFor st ty) h) }

/-- The unsubscribe closure returned by `subscribe` (lines 65–67):
`this.handlers[type]!.delete(handler)`. -/
def unsubscribe (st : ClientState) (ty : String) (h : Nat) : ClientState :=
  match mapGet st.handlers ty with
  | none => st
  | some hs => { st with handlers := mapSet st.handlers ty (hs.erase h) }

/-- The `for (const h of setForType) { try { h(msg) } catch {} }` loop of
`dispatch` (lines 199–201): every handler is invoked in order; `beh h = true`
means this handler throws on this call, which the `catch` swallows. -/
def runHandlers (beh : Nat → Bool) (m : ServerMessage) :
    List Nat → List Out
  | [] => []
  | h :: rest =>
      (if beh h then [Out.invoked h m, Out.handlerThrew h]
       else [Out.invoked h m]) ++ runHandlers beh m rest

/-- `dispatch(msg)` (lines 196–202): look up the subscriber set for the
message's tag; return when absent or empty; otherwise invoke each
subscriber under `try`/`catch`. -/
def dispatch (beh : Nat → Bool) (st : ClientState) (m : ServerMessage) :
    ClientState × List Out :=
  match mapGet st.handlers m.tag with
  | none => (st, [])
  | some hs => if hs.isEmpty then (st, []) else (st, runHandlers beh m hs)

/-- The `ws.onmessage` handler (lines 168–175): `JSON.parse` then
`dispatch`, the whole body under `try`/`catch`; `raw = none` models a
payload that fails to parse. -/
def onMessageEvent (beh : Nat → Bool) (st : ClientState)
    (raw : Option ServerMessage) : ClientState × List Out :=
  match raw with
  | none => (st, [])
  | some m => dispatch beh st m

/-! ### Identity bootstrap and the connect / reconnect paths

The transport and the random sources are the environment: a `ConnectEnv`
fixes what `crypto.randomUUID` (when available), the fallback id string,
`generateDisplayName()`, `generateColor()` and `Date.now()` would produce,
and each socket-opening step comes in a `…Ok` variant (the socket reaches
OPEN and `onopen` runs) and a `…Fail` variant (the socket fails and
`onclose` runs).  `openSocket` (lines 147–194) settles its promise only in
`onopen`, so on failure the code after `await openSocket()` never runs and
recovery goes through `onclose → scheduleReconnect`. -/

/-- Environment for one `connect()` call. -/
structure ConnectEnv where
  cryptoUUID : Option String
  fallbackId : String
  genName : String
  genColor : String
  now : Int
  deriving Repr

/-- `generateId` inside `connect` (lines 74–82): `crypto.randomUUID()` when
available, else the timestamp-plus-random fallback string. -/
def generateId (env : ConnectEnv) : String :=
  match env.cryptoUUID with
  | some u => u
  | none => env.fallbackId

/-- `userId || this.storage.getItem('exo-user-id') || generateId()`
(line 83), with JS string truthiness. -/
def resolveUserId (env : ConnectEnv) (storage : List (String × String))
    (userIdArg : Option String) : String :=
  (jsOr userIdArg (jsOr (mapGet storage "exo-user-id")
    (some (generateId env)))).getD (generateId env)

/-- `this.storage.getItem('exo-user-name') || this.generateDisplayName()`
(line 86), with JS string truthiness. -/
def resolveName (storage : List (String × String)) (env : ConnectEnv) :
    String :=
  (jsOr (mapGet storage "exo-user-name") (some env.genName)).getD env.genName

/-- `this.storage.getItem('exo-user-color') || this.generateColor()`
(line 87), with JS string truthiness. -/
def resolveColor (storage : List (String × String)) (env : ConnectEnv) :
    String :=
  (jsOr (mapGet storage "exo-user-color") (some env.genColor)).getD env.genColor

/-- The body of `connect(roomId, userId?)` before `await openSocket()`
(lines 70–98): set the room, resolve/persist identity, name and color,
and install `this.user`.  Returns the new state and the built user. -/
def connectSetup (env : ConnectEnv) (roomId : String)
    (userIdArg : Option String) (st : ClientState) :
    ClientState × UserPresence :=
  let existingId := resolveUserId env st.storage userIdArg
  let storage1 := mapSet st.storage "exo-user-id" existingId
  let name := resolveName storage1 env
  let color := resolveColor storage1 env
  let storage2 := mapSet storage1 "exo-user-name" name
  let storage3 := mapSet storage2 "exo-user-color" color
  let u : UserPresence :=
    { id := existingId, name := name, color := color
      joinedAt := env.now, lastSeen := env.now }
  ({ st with roomId := some roomId, storage := storage3, user := some u }, u)

/-- `new WebSocket(url); this.ws = ws` at the top of `openSocket`
(lines 150–151), with the new socket already at the ready state `r` it
reaches in the modelled step.  A replaced socket that had not closed yet
becomes an orphan (its callbacks can still fire against the client). -/
def newSocket (r : WsReady) (st : ClientState) : ClientState :=
  match st.ws with
  | none => { st with ws := some r }
  | some WsReady.closed => { st with ws := some r }
  | some _ => { st with ws := some r, orphans := st.orphans + 1 }

/-- `connect(roomId, userId?)` (lines 70–104) when the transport opens:
setup, `onopen` (reset counter, flush, notify), then `startHeartbeat()`
and `send(join)`. -/
def connectOk (env : ConnectEnv) (flushThrows : Nat → Bool)
    (joinThrows : Bool) (roomId : String) (userIdArg : Option String)
    (st : ClientState) : ClientState × List Out :=
  let s := connectSetup env roomId userIdArg st
  let st2 := newSocket WsReady.opened s.1
  let p := onOpenBody flushThrows st2
  let st3 := startHeartbeat p.1
  let q := send joinThrows st3 (ClientMessage.join roomId s.2)
  (q.1, p.2 ++ q.2)

/-- `connect(roomId, userId?)` when the transport fails to open: setup,
then the socket closes and `onclose` runs (`openSocket`'s promise never
settles, so heartbeat and join are never reached). -/
def connectFail (env : ConnectEnv) (roomId : String)
    (userIdArg : Option String) (st : ClientState) : ClientState × List Out :=
  let s := connectSetup env roomId userIdArg st
  let st2 := newSocket WsReady.closed s.1
  onCloseBody st2

/-- The reconnect-timer callback (lines 224–236) when the new socket opens:
clear the timer handle, bail when `this.roomId` is falsy, else open
(running `onopen`), then re-send `join` and `startHeartbeat()` when user
and room are set. -/
def timerOk (flushThrows : Nat → Bool) (joinThrows : Bool)
    (st : ClientState) : ClientState × List Out :=
  match st.reconnectTimer with
  | none => (st, [])
  | some _ =>
      let st1 := { st with reconnectTimer := none }
      if jsTruthy st1.roomId then
        let st2 := newSocket WsReady.opened st1
        let p := onOpenBody flushThrows st2
        match p.1.user, p.1.roomId with
        | some u, some r =>
            if r ≠ "" then
              let q := send joinThrows p.1 (ClientMessage.join r u)
              (startHeartbeat q.1, p.2 ++ q.2)
            else (p.1, p.2)
        | _, _ => (p.1, p.2)
      else (st1, [])

/-- The reconnect-timer callback when the new socket fails to open: clear
the timer handle, bail on a falsy room, else the socket closes and
`onclose` runs (scheduling the next backoff step). -/
def timerFail (st : ClientState) : ClientState × List Out :=
  match st.reconnectTimer with
  | none => (st, [])
  | some _ =>
      let st1 := { st with reconnectTimer := none }
      if jsTruthy st1.roomId then
        onCloseBody (newSocket WsReady.closed st1)
      else (st1, [])

/-- The current socket drops (network failure): its ready state becomes
CLOSED and its `onclose` handler runs. -/
def curClose (st : ClientState) : ClientState × List Out :=
  match st.ws with
  | some WsReady.opened =>
      onCloseBody { st with ws := some WsReady.closed }
  | some WsReady.connecting =>
      onCloseBody { st with ws := some WsReady.closed }
  | some WsReady.closing =>
      onCloseBody { st with ws := some WsReady.closed }
  | _ => (st, [])

/-- The `onclose` callback of a socket that was detached from `this.ws`
while not yet closed (e.g. closed by `disconnect()`) fires against the
client. -/
def orphanClose (st : ClientState) : ClientState × List Out :=
  match st.orphans with
  | 0 => (st, [])
  | n + 1 => onCloseBody { st with orphans := n }

/-- The public `reconnect()` (lines 115–122) when the socket opens: bail on
a falsy room or when already connected; else open (running `onopen`) and
re-send `join` when a user is set.  Note: no `startHeartbeat()` here. -/
def reconnectOk (flushThrows : Nat → Bool) (joinThrows : Bool)
    (st : ClientState) : ClientState × List Out :=
  match st.roomId with
  | none => (st, [])
  | some r =>
      if r = "" then (st, [])
      else if isConnected st then (st, [])
      else
        let st2 := newSocket WsReady.opened st
        let p := onOpenBody flushThrows st2
        match p.1.user with
        | some u =>
            let q := send joinThrows p.1 (ClientMessage.join r u)
            (q.1, p.2 ++ q.2)
        | none => (p.1, p.2)

/-! ## Helper lemmas on insertion-ordered maps -/

theorem mapGet_mapSet_self {α : Type} (m : List (String × α)) (k : String)
    (v : α) : mapGet (mapSet m k v) k = some v := by
  induction m with
  | nil => simp [mapGet, mapSet, List.find?]
  | cons e rest ih =>
      by_cases h : e.1 = k
      · simp [mapGet, mapSet, List.find?, h]
      · simpa [mapGet, mapSet, List.find?, h] using ih

theorem mapGet_mapSet_ne {α : Type} (m : List (String × α)) (k k' : String)
    (v : α) (h : k' ≠ k) : mapGet (mapSet m k v) k' = mapGet m k' := by
  induction m with
  | nil => simp [mapGet, mapSet, List.find?, Ne.symm h]
  | cons e rest ih =>
      by_cases he : e.1 = k
      · by_cases he' : e.1 = k' <;>
          simp_all [mapGet, mapSet, List.find?]
      · by_cases he' : e.1 = k' <;>
          simp_all [mapGet, mapSet, List.find?]

theorem mapGet_mapDelete_self {α : Type} (m : List (String × α))
    (k : String) : mapGet (mapDelete m k) k = none := by
  induction m with
  | nil => simp [mapGet, mapDelete]
  | cons e rest ih =>
      by_cases h : e.1 = k <;> simp_all [mapGet, mapDelete, List.find?]

theorem mapSet_mapSet {α : Type} (m : List (String × α)) (k : String)
    (v v' : α) : mapSet (mapSet m k v) k v' = mapSet m k v' := by
  induction m with
  | nil => simp [mapSet]
  | cons e rest ih =>
      by_cases h : e.1 = k <;> simp_all [mapSet]

theorem mapSet_append_of_not_mem {α : Type} (m : List (String × α))
    (k : String) (v : α) (h : ∀ e ∈ m, e.1 ≠ k) :
    mapSet m k v = m ++ [(k, v)] := by
  induction m with
  | nil => simp [mapSet]
  | cons e rest ih =>
      have h1 : e.1 ≠ k := h e (by simp)
      simp only [mapSet, if_neg h1, List.cons_append, List.cons.injEq, true_and]
      exact ih (fun e' he' => h e' (by simp [he']))

theorem foldl_mapSet_of_nodup {α : Type} (sel : List (String × α)) :
    ∀ acc : List (String × α),
      (∀ e ∈ sel, ∀ a ∈ acc, a.1 ≠ e.1) → (sel.map Prod.fst).Nodup →
      sel.foldl (fun ac e => mapSet ac e.1 e.2) acc = acc ++ sel := by
  induction sel with
  | nil => intro acc _ _; simp
  | cons e rest ih =>
      intro acc hdisj hnodup
      have hset : mapSet acc e.1 e.2 = acc ++ [e] := by
        have := mapSet_append_of_not_mem acc e.1 e.2
          (fun a ha => hdisj e (by simp) a ha)
        simpa using this
      have hcons : (e.1 :: rest.map Prod.fst).Nodup := by simpa using hnodup
      have hnodup' : (rest.map Prod.fst).Nodup := (List.nodup_cons.1 hcons).2
      have hnotin : e.1 ∉ rest.map Prod.fst := (List.nodup_cons.1 hcons).1
      have hdisj' : ∀ e' ∈ rest, ∀ a ∈ acc ++ [e], a.1 ≠ e'.1 := by
        intro e' he' a ha
        rcases List.mem_append.1 ha with hacc | hlast
        · exact hdisj e' (by simp [he']) a hacc
        · have : a = e := by simpa using hlast
          subst this
          intro hcontra
          exact hnotin (by
            have : e'.1 ∈ rest.map Prod.fst := List.mem_map_of_mem Prod.fst he'
            simpa [← hcontra] using this)
      calc (e :: rest).foldl (fun ac e2 => mapSet ac e2.1 e2.2) acc
          = rest.foldl (fun ac e2 => mapSet ac e2.1 e2.2) (acc ++ [e]) := by
            simp [List.foldl_cons, hset]
        _ = (acc ++ [e]) ++ rest := ih (acc ++ [e]) hdisj' hnodup'
        _ = acc ++ (e :: rest) := by simp

/-! ## Dispatch bookkeeping -/

/-- Project the subscriber invocations (handler, delivered message) out of
a step's observable effects. -/
def invokedOf : Out → Option (Nat × ServerMessage)
  | Out.invoked h m => some (h, m)
  | _ => none

theorem runHandlers_invocations (beh : Nat → Bool) (m : ServerMessage)
    (hs : List Nat) :
    (runHandlers beh m hs).filterMap invokedOf = hs.map (fun h => (h, m)) := by
  induction hs with
  | nil => simp [runHandlers]
  | cons h rest ih =>
      by_cases hb : beh h <;>
        simp [runHandlers, hb, List.filterMap_append, invokedOf, ih]

/-- The invocation list of `dispatch` is exactly the registered subscriber
set for the message's tag, in order, each paired with the message —
independently of which subscribers throw. -/
theorem dispatch_invocations (beh : Nat → Bool) (st : ClientState)
    (m : ServerMessage) :
    ((dispatch beh st m).2.filterMap invokedOf) =
      (handlersFor st m.tag).map (fun h => (h, m)) ∧
    (dispatch beh st m).1 = st := by
  unfold dispatch handlersFor
  cases hget : mapGet st.handlers m.tag with
  | none => simp
  | some hs =>
      by_cases he : hs.isEmpty
      · have : hs = [] := List.isEmpty_iff.1 he
        subst this; simp
      · simp [he, runHandlers_invocations]

/-! ## C4 — send transmits or queues, never discards -/

/-- C4: every message passed to `send` is either transmitted (exactly when
the transport is open and the transmit does not throw) or appended to the
outbound queue; it is never dropped, and `send` touches no other state. -/
theorem C4_send_transmits_or_queues (st : ClientState) (m : ClientMessage)
    (txThrows : Bool) :
    send txThrows st m =
      (if isConnected st = true ∧ txThrows = false then (st, [Out.sent m])
       else ({ st with messageQueue := st.messageQueue ++ [m] }, [])) ∧
    (Out.sent m ∈ (send txThrows st m).2 ∨
      m ∈ (send txThrows st m).1.messageQueue) := by
  constructor
  · unfold send
    by_cases hc : isConnected st <;> by_cases ht : txThrows <;> simp [hc, ht]
  · unfold send
    by_cases hc : isConnected st <;> by_cases ht : txThrows <;> simp [hc, ht]

/-! ## C7 — malformed or unhandled inbound payloads are dropped silently -/

/-- C7: an inbound payload that fails to parse, or whose tag has no
registered subscriber, leaves the client state untouched and produces no
observable effect. -/
theorem C7_malformed_or_unknown_dropped (st : ClientState)
    (beh : Nat → Bool) (m : ServerMessage)
    (hnone : handlersFor st m.tag = []) :
    onMessageEvent beh st none = (st, []) ∧
    onMessageEvent beh st (some m) = (st, []) := by
  constructor
  · rfl
  · unfold onMessageEvent dispatch
    unfold handlersFor at hnone
    cases hget : mapGet st.handlers m.tag with
    | none => simp [hget]
    | some hs =>
        rw [hget] at hnone
        simp at hnone
        simp [hget, hnone]

/-- Witness for C7 at a concrete state and message. -/
theorem C7_malformed_or_unknown_dropped_witness :
    onMessageEvent (fun _ => false) (initClient none []) none =
      (initClient none [], []) ∧
    onMessageEvent (fun _ => false) (initClient none [])
      (some (ServerMessage.ack "join" none)) = (initClient none [], []) :=
  C7_malformed_or_unknown_dropped (initClient none []) (fun _ => false)
    (ServerMessage.ack "join" none) (by decide)

/-! ## C8 — fan-out in registration order, throwers do not block -/

/-- C8: when the tag has registered subscribers, `dispatch` invokes each
of them synchronously in registration order with the same message, and a
throwing subscriber (any `beh`) does not prevent any later subscriber's
invocation; the client state is unchanged. -/
theorem C8_dispatch_fanout (st : ClientState) (beh : Nat → Bool)
    (m : ServerMessage) (hs : List Nat)
    (hreg : mapGet st.handlers m.tag = some hs) :
    ((dispatch beh st m).2.filterMap invokedOf) =
      hs.map (fun h => (h, m)) ∧
    (dispatch beh st m).1 = st := by
  have h := dispatch_invocations beh st m
  constructor
  · rw [h.1]; unfold handlersFor; rw [hreg]; simp
  · exact h.2

/-- Witness for C8: two subscribers for `presence`, the first one throwing;
both are invoked, in order. -/
theorem C8_dispatch_fanout_witness :
    ((dispatch (fun h => h = 7)
        (subscribe (subscribe (initClient none []) "presence" 7) "presence" 9)
        (ServerMessage.presence [])).2.filterMap invokedOf) =
      [(7, ServerMessage.presence []), (9, ServerMessage.presence [])] ∧
    (dispatch (fun h => h = 7)
        (subscribe (subscribe (initClient none []) "presence" 7) "presence" 9)
        (ServerMessage.presence [])).1 =
      subscribe (subscribe (initClient none []) "presence" 7) "presence" 9 := by
  have h := C8_dispatch_fanout
    (subscribe (subscribe (initClient none []) "presence" 7) "presence" 9)
    (fun h => h = 7) (ServerMessage.presence []) [7, 9] (by decide)
  exact ⟨by rw [h.1]; rfl, h.2⟩

/-! ## Field bookkeeping for the connection events -/

/-- The all-successful transmit oracle. -/
def noThrow : Nat → Bool := fun _ => false

theorem send_ws (tx : Bool) (st : ClientState) (m : ClientMessage) :
    (send tx st m).1.ws = st.ws := by
  unfold send; split_ifs <;> rfl

theorem send_roomId (tx : Bool) (st : ClientState) (m : ClientMessage) :
    (send tx st m).1.roomId = st.roomId := by
  unfold send; split_ifs <;> rfl

theorem send_user (tx : Bool) (st : ClientState) (m : ClientMessage) :
    (send tx st m).1.user = st.user := by
  unfold send; split_ifs <;> rfl

theorem send_heartbeatOn (tx : Bool) (st : ClientState) (m : ClientMessage) :
    (send tx st m).1.heartbeatOn = st.heartbeatOn := by
  unfold send; split_ifs <;> rfl

theorem send_storage (tx : Bool) (st : ClientState) (m : ClientMessage) :
    (send tx st m).1.storage = st.storage := by
  unfold send; split_ifs <;> rfl

/-- `send` of a message over an open transport with a non-throwing
transmit delivers it and changes nothing. -/
theorem send_open_ok (st : ClientState) (m : ClientMessage)
    (hws : isConnected st = true) : send false st m = (st, [Out.sent m]) := by
  unfold send
  rw [hws]
  simp

theorem flushLoop_ws (f : Nat → Bool) (q : List ClientMessage) :
    ∀ i st, (flushLoop f i st q).1.ws = st.ws := by
  induction q with
  | nil => intro i st; rfl
  | cons m rest ih =>
      intro i st
      show (flushLoop f (i + 1) (send (f i) st m).1 rest).1.ws = st.ws
      rw [ih, send_ws]

theorem flushLoop_roomId (f : Nat → Bool) (q : List ClientMessage) :
    ∀ i st, (flushLoop f i st q).1.roomId = st.roomId := by
  induction q with
  | nil => intro i st; rfl
  | cons m rest ih =>
      intro i st
      show (flushLoop f (i + 1) (send (f i) st m).1 rest).1.roomId = st.roomId
      rw [ih, send_roomId]

theorem flushLoop_user (f : Nat → Bool) (q : List ClientMessage) :
    ∀ i st, (flushLoop f i st q).1.user = st.user := by
  induction q with
  | nil => intro i st; rfl
  | cons m rest ih =>
      intro i st
      show (flushLoop f (i + 1) (send (f i) st m).1 rest).1.user = st.user
      rw [ih, send_user]

theorem flushLoop_heartbeatOn (f : Nat → Bool) (q : List ClientMessage) :
    ∀ i st, (flushLoop f i st q).1.heartbeatOn = st.heartbeatOn := by
  induction q with
  | nil => intro i st; rfl
  | cons m rest ih =>
      intro i st
      show (flushLoop f (i + 1) (send (f i) st m).1 rest).1.heartbeatOn =
        st.heartbeatOn
      rw [ih, send_heartbeatOn]

theorem flushLoop_storage (f : Nat → Bool) (q : List ClientMessage) :
    ∀ i st, (flushLoop f i st q).1.storage = st.storage := by
  induction q with
  | nil => intro i st; rfl
  | cons m rest ih =>
      intro i st
      show (flushLoop f (i + 1) (send (f i) st m).1 rest).1.storage = st.storage
      rw [ih, send_storage]

theorem onOpenBody_ws (f : Nat → Bool) (st : ClientState) :
    (onOpenBody f st).1.ws = st.ws := by
  show (flushLoop f 0 _ _).1.ws = st.ws
  rw [flushLoop_ws]

theorem onOpenBody_roomId (f : Nat → Bool) (st : ClientState) :
    (onOpenBody f st).1.roomId = st.roomId := by
  show (flushLoop f 0 _ _).1.roomId = st.roomId
  rw [flushLoop_roomId]

theorem onOpenBody_user (f : Nat → Bool) (st : ClientState) :
    (onOpenBody f st).1.user = st.user := by
  show (flushLoop f 0 _ _).1.user = st.user
  rw [flushLoop_user]

theorem onOpenBody_heartbeatOn (f : Nat → Bool) (st : ClientState) :
    (onOpenBody f st).1.heartbeatOn = st.heartbeatOn := by
  show (flushLoop f 0 _ _).1.heartbeatOn = st.heartbeatOn
  rw [flushLoop_heartbeatOn]

theorem onOpenBody_storage (f : Nat → Bool) (st : ClientState) :
    (onOpenBody f st).1.storage = st.storage := by
  show (flushLoop f 0 _ _).1.storage = st.storage
  rw [flushLoop_storage]

/-- Flushing with no transmit failures from an open transport transmits
the whole queue in order and leaves the state unchanged. -/
theorem flushLoop_noThrow (q : List ClientMessage) :
    ∀ i st, isConnected st = true →
      flushLoop noThrow i st q = (st, q.map Out.sent) := by
  induction q with
  | nil => intro i st _; rfl
  | cons m rest ih =>
      intro i st hws
      have hsend : send (noThrow i) st m = (st, [Out.sent m]) :=
        send_open_ok st m hws
      show (let p := send (noThrow i) st m
            let q2 := flushLoop noThrow (i + 1) p.1 rest
            (q2.1, p.2 ++ q2.2)) = _
      rw [hsend]
      show (let q2 := flushLoop noThrow (i + 1) st rest
            (q2.1, [Out.sent m] ++ q2.2)) = _
      rw [ih (i + 1) st hws]
      simp

/-- The `onopen` body with no transmit failures: attempt counter reset,
queue emptied, every queued message transmitted FIFO, every connected
listener notified. -/
theorem onOpenBody_noThrow (st : ClientState) (hws : isConnected st = true) :
    onOpenBody noThrow st =
      ({ st with reconnectAttempts := 0, messageQueue := [] },
        st.messageQueue.map Out.sent ++
          st.connectedHandlers.map Out.notifiedConnected) := by
  have h2 : isConnected ({ st with reconnectAttempts := 0, messageQueue := [] } : ClientState) = true := hws
  show (let p := flushLoop noThrow 0
          ({ st with reconnectAttempts := 0, messageQueue := [] }) st.messageQueue
        (p.1, p.2 ++ st.connectedHandlers.map Out.notifiedConnected)) = _
  rw [flushLoop_noThrow st.messageQueue 0 _ h2]

theorem newSocket_ws (r : WsReady) (st : ClientState) :
    (newSocket r st).ws = some r := by
  unfold newSocket
  cases hws : st.ws with
  | none => rfl
  | some w => cases w <;> rfl

theorem newSocket_roomId (r : WsReady) (st : ClientState) :
    (newSocket r st).roomId = st.roomId := by
  unfold newSocket
  cases hws : st.ws with
  | none => rfl
  | some w => cases w <;> rfl

theorem newSocket_user (r : WsReady) (st : ClientState) :
    (newSocket r st).user = st.user := by
  unfold newSocket
  cases hws : st.ws with
  | none => rfl
  | some w => cases w <;> rfl

theorem newSocket_heartbeatOn (r : WsReady) (st : ClientState) :
    (newSocket r st).heartbeatOn = st.heartbeatOn := by
  unfold newSocket
  cases hws : st.ws with
  | none => rfl
  | some w => cases w <;> rfl

theorem newSocket_messageQueue (r : WsReady) (st : ClientState) :
    (newSocket r st).messageQueue = st.messageQueue := by
  unfold newSocket
  cases hws : st.ws with
  | none => rfl
  | some w => cases w <;> rfl

theorem newSocket_storage (r : WsReady) (st : ClientState) :
    (newSocket r st).storage = st.storage := by
  unfold newSocket
  cases hws : st.ws with
  | none => rfl
  | some w => cases w <;> rfl

theorem newSocket_connectedHandlers (r : WsReady) (st : ClientState) :
    (newSocket r st).connectedHandlers = st.connectedHandlers := by
  unfold newSocket
  cases hws : st.ws with
  | none => rfl
  | some w => cases w <;> rfl

/-- After `openSocket` replaces the handle and `onopen` runs, the client
is connected. -/
theorem onOpen_after_newSocket_connected (f : Nat → Bool)
    (st : ClientState) :
    isConnected (onOpenBody f (newSocket WsReady.opened st)).1 = true := by
  unfold isConnected
  rw [onOpenBody_ws, newSocket_ws]
  rfl

theorem timerOk_rejoin (f : Nat → Bool) (stc : ClientState)
    (u : UserPresence) (r : String) (d : Nat)
    (ht : stc.reconnectTimer = some d) (hro : stc.roomId = some r)
    (hr2 : r ≠ "") (hu : stc.user = some u) :
    (timerOk f false stc).1.heartbeatOn = true ∧
    Out.sent (ClientMessage.join r u) ∈ (timerOk f false stc).2 := by
  constructor
  · simp only [timerOk, ht, hro, jsTruthy, hr2, onOpenBody_user,
      onOpenBody_roomId, newSocket_user, newSocket_roomId, hu]
    simp [hr2, startHeartbeat, stopHeartbeat]
  · simp only [timerOk, ht, hro, jsTruthy, hr2, onOpenBody_user,
      onOpenBody_roomId, newSocket_user, newSocket_roomId, hu]
    simp only [hr2, decide_False, Bool.not_false, ite_true, ne_eq,
      not_false_eq_true]
    rw [send_open_ok _ _ (onOpen_after_newSocket_connected f _)]
    simp

/-- `connect` with an opening transport always leaves the heartbeat
running. -/
theorem connectOk_heartbeatOn (env : ConnectEnv) (f : Nat → Bool) (j : Bool)
    (roomId : String) (uidArg : Option String) (st0 : ClientState) :
    (connectOk env f j roomId uidArg st0).1.heartbeatOn = true := by
  simp only [connectOk]
  rw [send_heartbeatOn]
  rfl

/-- The public `reconnect()` never touches the heartbeat timer, on any of
its paths. -/
theorem reconnectOk_heartbeatOn (f : Nat → Bool) (j : Bool)
    (st : ClientState) :
    (reconnectOk f j st).1.heartbeatOn = st.heartbeatOn := by
  unfold reconnectOk
  cases hro : st.roomId with
  | none => rfl
  | some r =>
      by_cases hre : r = ""
      · simp [hre]
      · by_cases hc : isConnected st
        · simp [hre, hc]
        · simp only [hre, hc, if_neg, if_false, Bool.false_eq_true,
            not_false_eq_true, ite_false, ite_true]
          cases hpu : (onOpenBody f (newSocket WsReady.opened st)).1.user with
          | none =>
              simp [hpu, onOpenBody_heartbeatOn, newSocket_heartbeatOn]
          | some u =>
              simp [hpu, send_heartbeatOn, onOpenBody_heartbeatOn,
                newSocket_heartbeatOn]

/-! ## Concrete traces

A fixed environment and the states a concrete client passes through:
connecting to room `"R1"` with empty storage, dropping, reconnecting. -/

/-- A concrete `connect` environment: `crypto.randomUUID` available. -/
def envA : ConnectEnv :=
  { cryptoUUID := some "uuid-1", fallbackId := "u_fb_1"
    genName := "Orion 1", genColor := "hsl(200 80% 60%)", now := 0 }

/-- The user `connect` builds under `envA` from empty storage. -/
def userA : UserPresence :=
  { id := "uuid-1", name := "Orion 1", color := "hsl(200 80% 60%)"
    joinedAt := 0, lastSeen := 0 }

/-- State after a successful `connect("R1")` under `envA`. -/
def connectedA : ClientState :=
  (connectOk envA noThrow false "R1" none (initClient (some "R1") [])).1

/-- `connectedA` after its socket drops (`onclose` ran, reconnect
scheduled, heartbeat stopped). -/
def droppedA : ClientState := (curClose connectedA).1

/-- `droppedA` after the user invokes the public `reconnect()` and the
socket opens. -/
def reconnectedA : ClientState × List Out := reconnectOk noThrow false droppedA

/-! ## C5 — effects of a transport open -/

/-- Counterexample to C5 as stated: after a drop, the public
`reconnect()` path opens the transport, yet the heartbeat is not running
afterwards (it had been stopped by `scheduleReconnect` on close and
`reconnect()` never restarts it). -/
theorem C5_reconnect_path_no_heartbeat :
    isConnected reconnectedA.1 = true ∧
    reconnectedA.1.heartbeatOn = false ∧
    Out.sent (ClientMessage.join "R1" userA) ∈ reconnectedA.2 := by decide

/-- C5 (amended): on every transport open the attempt counter is reset to
0, the queue is flushed FIFO and every connected listener is notified;
the heartbeat is started after the initial `connect()` opens and after a
scheduled reconnect opens, but the public `reconnect()` leaves the
heartbeat timer untouched on all its paths. -/
theorem C5_open_resets_flushes_notifies (st stc : ClientState)
    (env : ConnectEnv) (roomId : String) (uidArg : Option String)
    (st0 : ClientState) (u : UserPresence) (r : String) (d : Nat)
    (hopen : isConnected st = true)
    (ht : stc.reconnectTimer = some d) (hro : stc.roomId = some r)
    (hr2 : r ≠ "") (hu : stc.user = some u) :
    onOpenBody noThrow st =
      ({ st with reconnectAttempts := 0, messageQueue := [] },
        st.messageQueue.map Out.sent ++
          st.connectedHandlers.map Out.notifiedConnected) ∧
    (connectOk env noThrow false roomId uidArg st0).1.heartbeatOn = true ∧
    (timerOk noThrow false stc).1.heartbeatOn = true ∧
    (∀ st2 : ClientState, ∀ f : Nat → Bool, ∀ j : Bool,
      (reconnectOk f j st2).1.heartbeatOn = st2.heartbeatOn) :=
  ⟨onOpenBody_noThrow st hopen,
   connectOk_heartbeatOn env noThrow false roomId uidArg st0,
   (timerOk_rejoin noThrow stc u r d ht hro hr2 hu).1,
   fun st2 f j => reconnectOk_heartbeatOn f j st2⟩

/-- Witness for the amended C5 at concrete states: `connectedA` is open
with an empty queue, and the state after a failed fresh connect has a
pending timer, room `"R1"` and user `userA`. -/
theorem C5_open_resets_flushes_notifies_witness :
    onOpenBody noThrow connectedA =
      ({ connectedA with reconnectAttempts := 0, messageQueue := [] },
        connectedA.messageQueue.map Out.sent ++
          connectedA.connectedHandlers.map Out.notifiedConnected) ∧
    (timerOk noThrow false
      (connectFail envA "R1" none (initClient none [])).1).1.heartbeatOn =
      true := by
  have h := C5_open_resets_flushes_notifies connectedA
    (connectFail envA "R1" none (initClient none [])).1 envA "R1" none
    (initClient none []) userA "R1" 1000 (by decide) (by decide) (by decide)
    (by decide) (by decide)
  exact ⟨h.1, h.2.2.1⟩

/-! ## C3 — disconnect semantics -/

/-- `connectedA` after `disconnect()`. -/
def disconnectedA : ClientState := disconnect connectedA

/-- The orphaned socket closed by `disconnect()` fires `onclose`. -/
def orphanStepA : ClientState × List Out := orphanClose disconnectedA

/-- The reconnect timer scheduled by that `onclose` fires and the socket
opens. -/
def timerStepA : ClientState × List Out := timerOk noThrow false orphanStepA.1

/-- C3: `disconnect()` does stop the heartbeat, null the transport,
cancel the pending reconnect, zero the attempt counter, and it is
idempotent — but the claim's final conjunct fails: the socket closed by
`disconnect()` still fires `onclose`, which schedules a reconnect
(nothing was reset because `disconnect` just cleared the timer, and
`roomId` is never cleared), and when that timer fires the client reopens
and re-sends `join`. -/
theorem C3_disconnect_then_rejoin :
    disconnectedA.heartbeatOn = false ∧
    disconnectedA.ws = none ∧
    disconnectedA.reconnectTimer = none ∧
    disconnectedA.reconnectAttempts = 0 ∧
    disconnect disconnectedA = disconnectedA ∧
    orphanStepA.2 = [Out.scheduledDelay 1000] ∧
    timerStepA.2 = [Out.sent (ClientMessage.join "R1" userA)] ∧
    isConnected timerStepA.1 = true ∧
    timerStepA.1.heartbeatOn = true := by decide

/-! ## C9 — identity bootstrap and rejoin with the persisted id -/

theorem resolveUserId_arg (env : ConnectEnv)
    (storage : List (String × String)) (uidArg : Option String)
    (h : jsTruthy uidArg = true) :
    resolveUserId env storage uidArg = uidArg.getD "" := by
  cases uidArg with
  | none => simp [jsTruthy] at h
  | some s => simp [resolveUserId, jsOr, h]

theorem resolveUserId_storage (env : ConnectEnv)
    (storage : List (String × String)) (uidArg : Option String)
    (h1 : jsTruthy uidArg = false)
    (h2 : jsTruthy (mapGet storage "exo-user-id") = true) :
    resolveUserId env storage uidArg =
      (mapGet storage "exo-user-id").getD "" := by
  cases hg : mapGet storage "exo-user-id" with
  | none => rw [hg] at h2; simp [jsTruthy] at h2
  | some s =>
      rw [hg] at h2
      simp [resolveUserId, jsOr, h1, h2, hg]

theorem resolveUserId_generated (env : ConnectEnv)
    (storage : List (String × String)) (uidArg : Option String)
    (h1 : jsTruthy uidArg = false)
    (h2 : jsTruthy (mapGet storage "exo-user-id") = false) :
    resolveUserId env storage uidArg = generateId env := by
  simp [resolveUserId, jsOr, h1, h2]

/-- `connect` from a fresh client whose transport opens: the resolved id,
name and color are installed as `this.user`, persisted to storage, and a
single `join` carrying that user goes out. -/
theorem connectOk_spec (env : ConnectEnv) (storage : List (String × String))
    (rid0 : Option String) (roomId : String) (uidArg : Option String)
    (uid nm cl : String) (bu : UserPresence)
    (huid : uid = resolveUserId env storage uidArg)
    (hnm : nm = resolveName (mapSet storage "exo-user-id" uid) env)
    (hcl : cl = resolveColor (mapSet storage "exo-user-id" uid) env)
    (hbu : bu = ⟨uid, nm, cl, env.now, env.now, none, none⟩) :
    (connectOk env noThrow false roomId uidArg
        (initClient rid0 storage)).1.user = some bu ∧
    mapGet (connectOk env noThrow false roomId uidArg
        (initClient rid0 storage)).1.storage "exo-user-id" = some uid ∧
    mapGet (connectOk env noThrow false roomId uidArg
        (initClient rid0 storage)).1.storage "exo-user-name" = some nm ∧
    mapGet (connectOk env noThrow false roomId uidArg
        (initClient rid0 storage)).1.storage "exo-user-color" = some cl ∧
    (connectOk env noThrow false roomId uidArg (initClient rid0 storage)).2 =
      [Out.sent (ClientMessage.join roomId bu)] := by
  subst huid hnm hcl hbu
  simp only [connectOk, connectSetup, initClient, newSocket, onOpenBody,
    flushLoop, startHeartbeat, stopHeartbeat, send, isConnected]
  simp
  refine ⟨?_, ?_, ?_⟩
  · rw [mapGet_mapSet_ne _ _ _ _
        (show "exo-user-id" ≠ "exo-user-color" by decide),
      mapGet_mapSet_ne _ _ _ _
        (show "exo-user-id" ≠ "exo-user-name" by decide),
      mapGet_mapSet_self]
  · rw [mapGet_mapSet_ne _ _ _ _
        (show "exo-user-name" ≠ "exo-user-color" by decide),
      mapGet_mapSet_self]
  · rw [mapGet_mapSet_self]

theorem scheduleReconnect_user (st : ClientState) :
    (scheduleReconnect st).1.user = st.user := by
  cases h : st.reconnectTimer with
  | none => simp [scheduleReconnect, stopHeartbeat, h]
  | some d => simp [scheduleReconnect, stopHeartbeat, h]

theorem onCloseBody_user (st : ClientState) :
    (onCloseBody st).1.user = st.user :=
  scheduleReconnect_user st

theorem curClose_user (st : ClientState) :
    (curClose st).1.user = st.user := by
  unfold curClose
  cases hws : st.ws with
  | none => rfl
  | some w =>
      cases w with
      | connecting => rw [onCloseBody_user]
      | opened => rw [onCloseBody_user]
      | closing => rw [onCloseBody_user]
      | closed => rfl

theorem orphanClose_user (st : ClientState) :
    (orphanClose st).1.user = st.user := by
  unfold orphanClose
  cases ho : st.orphans with
  | zero => rfl
  | succ n => rw [onCloseBody_user]

theorem disconnect_user (st : ClientState) :
    (disconnect st).user = st.user := by
  unfold disconnect stopHeartbeat clearReconnect
  dsimp only
  cases hws : st.ws with
  | none => rfl
  | some w => cases w <;> rfl

theorem timerFail_user (st : ClientState) :
    (timerFail st).1.user = st.user := by
  cases ht : st.reconnectTimer with
  | none => simp [timerFail, ht]
  | some d =>
      by_cases hj : jsTruthy st.roomId
      · simp [timerFail, ht, hj, onCloseBody_user, newSocket_user]
      · simp [timerFail, ht, hj]

/-- C9: `connect(roomId, userId?)` resolves the user id from its argument,
else from storage, else generates it (the crypto UUID when available,
else the fallback string), persists id, display name and color, and on a
successful open sends `join` carrying exactly that user; a scheduled
reconnect re-sends `join` with the client's current (persisted) user, and
no close/disconnect/reconnect-failure event ever changes `this.user`. -/
theorem C9_connect_identity_rejoin (env : ConnectEnv)
    (storage : List (String × String)) (rid0 : Option String)
    (roomId : String) (uidArg : Option String)
    (uid nm cl : String) (bu : UserPresence) (stc : ClientState)
    (u : UserPresence) (r : String) (d : Nat)
    (huid : uid = resolveUserId env storage uidArg)
    (hnm : nm = resolveName (mapSet storage "exo-user-id" uid) env)
    (hcl : cl = resolveColor (mapSet storage "exo-user-id" uid) env)
    (hbu : bu = ⟨uid, nm, cl, env.now, env.now, none, none⟩)
    (ht : stc.reconnectTimer = some d) (hro : stc.roomId = some r)
    (hr2 : r ≠ "") (hu : stc.user = some u) :
    (connectOk env noThrow false roomId uidArg
        (initClient rid0 storage)).1.user = some bu ∧
    mapGet (connectOk env noThrow false roomId uidArg
        (initClient rid0 storage)).1.storage "exo-user-id" = some uid ∧
    mapGet (connectOk env noThrow false roomId uidArg
        (initClient rid0 storage)).1.storage "exo-user-name" = some nm ∧
    mapGet (connectOk env noThrow false roomId uidArg
        (initClient rid0 storage)).1.storage "exo-user-color" = some cl ∧
    (connectOk env noThrow false roomId uidArg (initClient rid0 storage)).2 =
      [Out.sent (ClientMessage.join roomId bu)] ∧
    (jsTruthy uidArg = true → uid = uidArg.getD "") ∧
    (jsTruthy uidArg = false →
      jsTruthy (mapGet storage "exo-user-id") = true →
      uid = (mapGet storage "exo-user-id").getD "") ∧
    (jsTruthy uidArg = false →
      jsTruthy (mapGet storage "exo-user-id") = false →
      uid = generateId env) ∧
    (env.cryptoUUID = none → generateId env = env.fallbackId) ∧
    (∀ s : String, env.cryptoUUID = some s → generateId env = s) ∧
    Out.sent (ClientMessage.join r u) ∈ (timerOk noThrow false stc).2 ∧
    (∀ st2 : ClientState, (timerFail st2).1.user = st2.user ∧
      (curClose st2).1.user = st2.user ∧
      (orphanClose st2).1.user = st2.user ∧
      (disconnect st2).user = st2.user ∧
      (scheduleReconnect st2).1.user = st2.user) := by
  obtain ⟨h1, h2, h3, h4, h5⟩ :=
    connectOk_spec env storage rid0 roomId uidArg uid nm cl bu huid hnm hcl hbu
  refine ⟨h1, h2, h3, h4, h5, ?_, ?_, ?_, ?_, ?_, ?_, ?_⟩
  · intro ha; rw [huid, resolveUserId_arg env storage uidArg ha]
  · intro ha hb; rw [huid, resolveUserId_storage env storage uidArg ha hb]
  · intro ha hb; rw [huid, resolveUserId_generated env storage uidArg ha hb]
  · intro hc; simp [generateId, hc]
  · intro s hc; simp [generateId, hc]
  · exact (timerOk_rejoin noThrow stc u r d ht hro hr2 hu).2
  · intro st2
    exact ⟨timerFail_user st2, curClose_user st2, orphanClose_user st2,
      disconnect_user st2, scheduleReconnect_user st2⟩

/-- Witness for C9 under `envA` from empty storage, with the failed-fresh
connect state as the pending-reconnect state. -/
theorem C9_connect_identity_rejoin_witness :
    (connectOk envA noThrow false "R1" none
        (initClient none [])).1.user = some userA ∧
    mapGet (connectOk envA noThrow false "R1" none
        (initClient none [])).1.storage "exo-user-id" = some "uuid-1" ∧
    (connectOk envA noThrow false "R1" none (initClient none [])).2 =
      [Out.sent (ClientMessage.join "R1" userA)] ∧
    Out.sent (ClientMessage.join "R1" userA) ∈
      (timerOk noThrow false
        (connectFail envA "R1" none (initClient none [])).1).2 := by
  have h := C9_connect_identity_rejoin envA [] none "R1" none
    "uuid-1" "Orion 1" "hsl(200 80% 60%)" userA
    (connectFail envA "R1" none (initClient none [])).1 userA "R1" 1000
    (by decide) (by decide) (by decide) (by decide) (by decide) (by decide)
    (by decide) (by decide)
  exact ⟨h.1, h.2.1, h.2.2.2.2.1, h.2.2.2.2.2.2.2.2.2.2.1⟩

/-! ## C1 — exponential reconnect backoff -/

/-- The reconnect delays among a step sequence's observable effects. -/
def observedDelays (outs : List Out) : List Nat :=
  outs.filterMap (fun o =>
    match o with
    | Out.scheduledDelay d => some d
    | _ => none)

/-- A fresh client whose `connect(roomId)` and every subsequent scheduled
reconnect fail to open the transport: state and accumulated effects after
the initial failure and `n` further timer firings. -/
def failTrace (env : ConnectEnv) (roomId : String) (uidArg : Option String)
    (rid0 : Option String) (storage : List (String × String)) :
    Nat → ClientState × List Out
  | 0 => connectFail env roomId uidArg (initClient rid0 storage)
  | n + 1 =>
      let p := failTrace env roomId uidArg rid0 storage n
      let q := timerFail p.1
      (q.1, p.2 ++ q.2)

/-- One failed retry cycle from a closed socket: the timer fires, the new
socket fails, `onclose` notifies and schedules the next backoff delay
`min(1000·2^attempts, 15000)`, incrementing the attempt counter. -/
theorem timerFail_step (st : ClientState) (r : String) (d : Nat)
    (hro : st.roomId = some r) (hr2 : r ≠ "")
    (hws : st.ws = some WsReady.closed) (ht : st.reconnectTimer = some d) :
    timerFail st =
      ({ st with
          heartbeatOn := false
          reconnectTimer := some (min (1000 * 2 ^ st.reconnectAttempts) 15000)
          reconnectAttempts := st.reconnectAttempts + 1 },
        st.disconnectedHandlers.map Out.notifiedDisconnected ++
          [Out.scheduledDelay
            (min (1000 * 2 ^ st.reconnectAttempts) 15000)]) := by
  obtain ⟨ws0, rid0, u0, mq0, hd0, ch0, dh0, hb0, rt0, ra0, sg0, or0⟩ := st
  dsimp only at hro hws ht
  subst hro hws ht
  simp [timerFail, jsTruthy, hr2, newSocket, onCloseBody, scheduleReconnect,
    stopHeartbeat, RECONNECT_BASE_DELAY_MS, RECONNECT_MAX_DELAY_MS]

/-- The initial `connect` failure from a fresh client: first backoff
scheduling of 1000 ms, attempt counter 1. -/
theorem connectFail_fresh (env : ConnectEnv) (roomId : String)
    (uidArg : Option String) (rid0 : Option String)
    (storage : List (String × String)) :
    (connectFail env roomId uidArg (initClient rid0 storage)).1.roomId =
      some roomId ∧
    (connectFail env roomId uidArg (initClient rid0 storage)).1.ws =
      some WsReady.closed ∧
    (connectFail env roomId uidArg (initClient rid0 storage)).1.reconnectTimer
      = some 1000 ∧
    (connectFail env roomId uidArg
      (initClient rid0 storage)).1.reconnectAttempts = 1 ∧
    (connectFail env roomId uidArg
      (initClient rid0 storage)).1.disconnectedHandlers = [] ∧
    (connectFail env roomId uidArg (initClient rid0 storage)).2 =
      [Out.scheduledDelay 1000] := by
  simp [connectFail, connectSetup, initClient, newSocket, onCloseBody,
    scheduleReconnect, stopHeartbeat, RECONNECT_BASE_DELAY_MS,
    RECONNECT_MAX_DELAY_MS]

/-- Invariant of the failing retry loop: after the initial failure and
`n` further failed retries, the attempt counter reads `n + 1`, the
pending delay is `min(1000·2^n, 15000)`, and the scheduled delays so far
are `min(1000·2^i, 15000)` for `i = 0 … n` in order. -/
theorem failTrace_invariant (env : ConnectEnv) (roomId : String)
    (uidArg : Option String) (rid0 : Option String)
    (storage : List (String × String)) (hr2 : roomId ≠ "") (n : Nat) :
    (failTrace env roomId uidArg rid0 storage n).1.roomId = some roomId ∧
    (failTrace env roomId uidArg rid0 storage n).1.ws =
      some WsReady.closed ∧
    (failTrace env roomId uidArg rid0 storage n).1.reconnectTimer =
      some (min (1000 * 2 ^ n) 15000) ∧
    (failTrace env roomId uidArg rid0 storage n).1.reconnectAttempts =
      n + 1 ∧
    (failTrace env roomId uidArg rid0 storage n).1.disconnectedHandlers
      = [] ∧
    observedDelays (failTrace env roomId uidArg rid0 storage n).2 =
      (List.range (n + 1)).map (fun i => min (1000 * 2 ^ i) 15000) := by
  induction n with
  | zero =>
      have h := connectFail_fresh env roomId uidArg rid0 storage
      refine ⟨h.1, h.2.1, ?_, h.2.2.2.1, h.2.2.2.2.1, ?_⟩
      · show (connectFail env roomId uidArg
          (initClient rid0 storage)).1.reconnectTimer = _
        rw [h.2.2.1]
        norm_num
      · show observedDelays
          (connectFail env roomId uidArg (initClient rid0 storage)).2 = _
        rw [h.2.2.2.2.2]
        simp [observedDelays]
        decide
  | succ n ih =>
      obtain ⟨ihro, ihws, iht, ihra, ihdh, ihd⟩ := ih
      have hstep := timerFail_step (failTrace env roomId uidArg rid0 storage n).1
        roomId (min (1000 * 2 ^ n) 15000) ihro hr2 ihws iht
      have hsplit : failTrace env roomId uidArg rid0 storage (n + 1) =
          ((timerFail (failTrace env roomId uidArg rid0 storage n).1).1,
            (failTrace env roomId uidArg rid0 storage n).2 ++
              (timerFail (failTrace env roomId uidArg rid0 storage n).1).2) :=
        rfl
      rw [hsplit, hstep, ihra]
      refine ⟨ihro, ihws, rfl, rfl, ihdh, ?_⟩
      show observedDelays ((failTrace env roomId uidArg rid0 storage n).2 ++
        ((failTrace env roomId uidArg rid0 storage
          n).1.disconnectedHandlers.map Out.notifiedDisconnected ++
          [Out.scheduledDelay (min (1000 * 2 ^ (n + 1)) 15000)])) = _
      unfold observedDelays at ihd ⊢
      rw [List.filterMap_append, ihd, ihdh, List.range_succ]
      simp [List.range_succ]

/-- C1: starting from a fresh Connection Manager whose every open attempt
fails, the delays scheduled are exactly `min(1000·2^(N−1), 15000)` ms for
the `N`-th retry (so the last of `n+1` is `min(1000·2^n, 15000)`), the
attempt counter reads the number of schedulings performed and is never
reset along the failure trace; and scheduling while a timer is already
pending changes neither the pending timer nor the counter and schedules
nothing, so at most one reconnect timer is ever pending. -/
theorem C1_reconnect_backoff (env : ConnectEnv) (roomId : String)
    (uidArg : Option String) (rid0 : Option String)
    (storage : List (String × String)) (n : Nat) (hr2 : roomId ≠ "") :
    observedDelays (failTrace env roomId uidArg rid0 storage n).2 =
      (List.range (n + 1)).map (fun i => min (1000 * 2 ^ i) 15000) ∧
    (observedDelays (failTrace env roomId uidArg rid0 storage n).2).getLast?
      = some (min (1000 * 2 ^ n) 15000) ∧
    (failTrace env roomId uidArg rid0 storage n).1.reconnectAttempts =
      n + 1 ∧
    (∀ st : ClientState, ∀ d : Nat, st.reconnectTimer = some d →
      (scheduleReconnect st).1.reconnectTimer = some d ∧
      (scheduleReconnect st).1.reconnectAttempts = st.reconnectAttempts ∧
      (scheduleReconnect st).2 = []) := by
  obtain ⟨_, _, _, hra, _, hd⟩ :=
    failTrace_invariant env roomId uidArg rid0 storage hr2 n
  refine ⟨hd, ?_, hra, ?_⟩
  · rw [hd, List.range_succ]
    simp
  · intro st d hpend
    unfold scheduleReconnect stopHeartbeat
    dsimp only
    rw [hpend]
    exact ⟨rfl, rfl, rfl⟩

/-- Witness for C1: five consecutive failures under `envA` yield delays
1000, 2000, 4000, 8000, 15000 and an attempt counter of 5. -/
theorem C1_reconnect_backoff_witness :
    observedDelays (failTrace envA "R1" none none [] 4).2 =
      [1000, 2000, 4000, 8000, 15000] ∧
    (failTrace envA "R1" none none [] 4).1.reconnectAttempts = 5 := by
  have h := C1_reconnect_backoff envA "R1" none none [] 4 (by decide)
  refine ⟨?_, h.2.2.1⟩
  rw [h.1]
  rfl

/-! ## C2 — optimistic selection and conflict rollback -/

/-- C2: `selectPlanet` immediately adds the current user to the local
entry for the planet (appending only when not already present) and records
the attempted planet id; a `conflict` for the planet of the most recent
outstanding attempt then removes the user from that entry (deleting the
entry when it becomes empty), populates `lastConflict` with the conflict's
planet, holder and reason, and clears the outstanding attempt. -/
theorem C2_select_conflict_rollback (st : ProjState)
    (uid pid lockedBy : String) (reason : Option String) (hpid : pid ≠ "") :
    (let p := selectPlanet (some uid) pid st
     let e := (mapGet st.selectedPlanets pid).getD []
     let e1 := (mapGet p.1.selectedPlanets pid).getD []
     (e1 = if e.contains uid then e else e ++ [uid]) ∧
     uid ∈ e1 ∧
     p.1.lastSelectAttempt = some pid ∧
     p.2 = [ClientMessage.select pid uid] ∧
     (let st2 := onConflict (some uid) pid lockedBy reason p.1
      uid ∉ (mapGet st2.selectedPlanets pid).getD [] ∧
      (e1.filter (fun u => u ≠ uid) = [] →
        mapGet st2.selectedPlanets pid = none) ∧
      (e1.filter (fun u => u ≠ uid) ≠ [] →
        mapGet st2.selectedPlanets pid = some (e1.filter (fun u => u ≠ uid))) ∧
      st2.lastConflict = some ⟨pid, lockedBy, reason⟩ ∧
      st2.lastSelectAttempt = none)) := by
  intro p e e1
  have hsel : p.1.selectedPlanets =
      mapSet st.selectedPlanets pid (if e.contains uid then e else e ++ [uid]) := rfl
  have he1 : e1 = (if e.contains uid then e else e ++ [uid]) := by
    show (mapGet p.1.selectedPlanets pid).getD [] = _
    rw [hsel, mapGet_mapSet_self]
    rfl
  have hmem : uid ∈ e1 := by
    rw [he1]
    by_cases hc : e.contains uid
    · rw [if_pos hc]
      exact List.elem_iff.1 hc
    · rw [if_neg hc]
      simp
  refine ⟨he1, hmem, rfl, rfl, ?_⟩
  intro st2
  have hguard : (jsTruthy p.1.lastSelectAttempt ∧
      some pid = p.1.lastSelectAttempt) := by
    constructor
    · show jsTruthy (some pid) = true
      simp [jsTruthy, hpid]
    · rfl
  have hst2 : st2 = (let list := e1.filter (fun u => u ≠ uid)
      let sel := if list.isEmpty then mapDelete p.1.selectedPlanets pid
                 else mapSet p.1.selectedPlanets pid list
      { p.1 with
          selectedPlanets := sel
          lastConflict := some ⟨pid, lockedBy, reason⟩
          lastSelectAttempt := none }) := by
    show onConflict (some uid) pid lockedBy reason p.1 = _
    simp only [onConflict]
    rw [if_pos hguard]
  by_cases hemp : (e1.filter (fun u => u ≠ uid)).isEmpty
  · have hsel2 : st2.selectedPlanets = mapDelete p.1.selectedPlanets pid := by
      rw [hst2]
      show (if (e1.filter (fun u => u ≠ uid)).isEmpty then
          mapDelete p.1.selectedPlanets pid
        else mapSet p.1.selectedPlanets pid (e1.filter (fun u => u ≠ uid))) = _
      rw [if_pos hemp]
    have hget2 : mapGet st2.selectedPlanets pid = none := by
      rw [hsel2, mapGet_mapDelete_self]
    refine ⟨by simp [hget2], fun _ => hget2, ?_, ?_, ?_⟩
    · intro hne
      exact absurd (List.isEmpty_iff.1 hemp) hne
    · rw [hst2]
    · rw [hst2]
  · have hsel2 : st2.selectedPlanets =
        mapSet p.1.selectedPlanets pid (e1.filter (fun u => u ≠ uid)) := by
      rw [hst2]
      show (if (e1.filter (fun u => u ≠ uid)).isEmpty then
          mapDelete p.1.selectedPlanets pid
        else mapSet p.1.selectedPlanets pid (e1.filter (fun u => u ≠ uid))) = _
      rw [if_neg hemp]
    have hget2 : mapGet st2.selectedPlanets pid =
        some (e1.filter (fun u => u ≠ uid)) := by
      rw [hsel2, mapGet_mapSet_self]
    refine ⟨?_, ?_, fun _ => hget2, ?_, ?_⟩
    · rw [hget2]
      simp only [Option.getD_some]
      intro hmem2
      have := (List.mem_filter.1 hmem2).2
      simp at this
    · intro hnil
      exact absurd hnil (by simpa [List.isEmpty_iff] using hemp)
    · rw [hst2]
    · rw [hst2]

/-- Counterexample to C2 as universally stated: with the empty string as
planet id, `selectPlanet` records the attempt and a matching `conflict`
arrives, yet the handler's JS-truthiness guard
(`lastSelectAttemptRef.current && …`) treats the recorded `""` as falsy:
no rollback happens and `lastConflict` stays unset. -/
theorem C2_empty_planetId_no_rollback :
    (let p := selectPlanet (some "u1") "" (ProjState.mk [] none none)
     let st2 := onConflict (some "u1") "" "u2" none p.1
     p.1.lastSelectAttempt = some "" ∧
     "u1" ∈ (mapGet st2.selectedPlanets "").getD [] ∧
     st2.lastConflict = none) := by decide

/-- Witness for C2 at a concrete state: empty local map, user `"u1"`
selecting `"Kepler-22b"`, then a conflict from `"u2"`. -/
theorem C2_select_conflict_rollback_witness :
    (let st0 : ProjState := ⟨[], none, none⟩
     let p := selectPlanet (some "u1") "Kepler-22b" st0
     let st2 := onConflict (some "u1") "Kepler-22b" "u2" (some "locked") p.1
     "u1" ∈ (mapGet p.1.selectedPlanets "Kepler-22b").getD [] ∧
     p.1.lastSelectAttempt = some "Kepler-22b" ∧
     mapGet st2.selectedPlanets "Kepler-22b" = none ∧
     st2.lastConflict = some ⟨"Kepler-22b", "u2", some "locked"⟩) := by
  have h := C2_select_conflict_rollback ⟨[], none, none⟩ "u1" "Kepler-22b"
    "u2" (some "locked") (by decide)
  exact ⟨h.2.1, h.2.2.1, h.2.2.2.2.2.1 (by decide), h.2.2.2.2.2.2.2.1⟩

/-! ## C10 — unsubscribe handles and set semantics of subscribe -/

theorem handlersFor_subscribe (st : ClientState) (ty : String) (h : Nat) :
    handlersFor (subscribe st ty h) ty = setAdd (handlersFor st ty) h := by
  unfold handlersFor subscribe
  rw [mapGet_mapSet_self]
  rfl

theorem handlersFor_unsubscribe (st : ClientState) (ty : String) (h : Nat) :
    handlersFor (unsubscribe st ty h) ty = (handlersFor st ty).erase h := by
  unfold handlersFor unsubscribe
  cases hget : mapGet st.handlers ty with
  | none => simp [hget]
  | some hs => simp [hget, mapGet_mapSet_self]

theorem mem_setAdd_self (hs : List Nat) (h : Nat) : h ∈ setAdd hs h := by
  unfold setAdd
  by_cases hc : hs.contains h
  · rw [if_pos hc]; exact List.elem_iff.1 hc
  · rw [if_neg hc]; simp

theorem setAdd_idem (hs : List Nat) (h : Nat) :
    setAdd (setAdd hs h) h = setAdd hs h := by
  show (if (setAdd hs h).contains h then setAdd hs h else _) = setAdd hs h
  rw [if_pos (List.elem_iff.2 (mem_setAdd_self hs h))]

/-- C10: after the unsubscribe handle runs, the handler receives no
invocation for messages of that tag; subscribing the same handler twice
for the same tag is the same state as subscribing once, and such a handler
is invoked exactly once per dispatched message; running the unsubscribe
handle a second time changes nothing further. -/
theorem C10_subscribe_unsubscribe_semantics (st : ClientState)
    (beh : Nat → Bool) (m : ServerMessage) (h : Nat)
    (hnd : (handlersFor st m.tag).Nodup) :
    (((dispatch beh (unsubscribe st m.tag h) m).2.filterMap invokedOf).map
        Prod.fst).count h = 0 ∧
    subscribe (subscribe st m.tag h) m.tag h = subscribe st m.tag h ∧
    (((dispatch beh (subscribe st m.tag h) m).2.filterMap invokedOf).map
        Prod.fst).count h = 1 ∧
    unsubscribe (unsubscribe st m.tag h) m.tag h = unsubscribe st m.tag h := by
  have hinv : ∀ st2 : ClientState,
      ((dispatch beh st2 m).2.filterMap invokedOf).map Prod.fst =
        handlersFor st2 m.tag := by
    intro st2
    rw [(dispatch_invocations beh st2 m).1, List.map_map]
    have hcomp : (Prod.fst ∘ fun h2 : Nat => (h2, m)) = id :=
      funext (fun _ => rfl)
    rw [hcomp, List.map_id]
  refine ⟨?_, ?_, ?_, ?_⟩
  · rw [hinv, handlersFor_unsubscribe]
    have hnotm : h ∉ (handlersFor st m.tag).erase h := fun hm =>
      ((List.Nodup.mem_erase_iff hnd).1 hm).1 rfl
    exact List.count_eq_zero_of_not_mem hnotm
  · have hh : mapSet (subscribe st m.tag h).handlers m.tag
        (setAdd (handlersFor (subscribe st m.tag h) m.tag) h) =
        (subscribe st m.tag h).handlers := by
      rw [handlersFor_subscribe, setAdd_idem]
      show mapSet (mapSet st.handlers m.tag (setAdd (handlersFor st m.tag) h))
          m.tag (setAdd (handlersFor st m.tag) h) = _
      rw [mapSet_mapSet]
      rfl
    show ({ subscribe st m.tag h with
        handlers := mapSet (subscribe st m.tag h).handlers m.tag
          (setAdd (handlersFor (subscribe st m.tag h) m.tag) h) } :
        ClientState) = subscribe st m.tag h
    rw [hh]
  · rw [hinv, handlersFor_subscribe]
    unfold setAdd
    by_cases hc : (handlersFor st m.tag).contains h
    · rw [if_pos hc]
      exact List.count_eq_one_of_mem hnd (List.elem_iff.1 hc)
    · rw [if_neg hc]
      have hnm : h ∉ handlersFor st m.tag := fun hm => hc (List.elem_iff.2 hm)
      simp [List.count_append, List.count_eq_zero_of_not_mem hnm]
  · cases hget : mapGet st.handlers m.tag with
    | none =>
        have h1 : unsubscribe st m.tag h = st := by
          unfold unsubscribe; rw [hget]
        rw [h1]
        exact h1
    | some hs =>
        have hhs : hs.Nodup := by
          unfold handlersFor at hnd
          rw [hget] at hnd
          simpa using hnd
        have herase : (hs.erase h).erase h = hs.erase h :=
          List.erase_of_not_mem (fun hm =>
            ((List.Nodup.mem_erase_iff hhs).1 hm).1 rfl)
        have h1 : unsubscribe st m.tag h =
            { st with handlers := mapSet st.handlers m.tag (hs.erase h) } := by
          unfold unsubscribe; rw [hget]
        rw [h1]
        have hget2 : mapGet ({ st with
            handlers := mapSet st.handlers m.tag (hs.erase h) } :
            ClientState).handlers m.tag = some (hs.erase h) :=
          mapGet_mapSet_self _ _ _
        have h2 : unsubscribe ({ st with
            handlers := mapSet st.handlers m.tag (hs.erase h) } :
            ClientState) m.tag h =
            { st with handlers := mapSet (mapSet st.handlers m.tag
                (hs.erase h)) m.tag ((hs.erase h).erase h) } := by
          unfold unsubscribe; rw [hget2]
        rw [h2, herase, mapSet_mapSet]

/-- Witness for C10 with one registered `presence` subscriber. -/
theorem C10_subscribe_unsubscribe_semantics_witness :
    (((dispatch (fun _ => false)
        (unsubscribe (subscribe (initClient none []) "presence" 5)
          "presence" 5) (ServerMessage.presence [])).2.filterMap
        invokedOf).map Prod.fst).count 5 = 0 ∧
    (((dispatch (fun _ => false)
        (subscribe (subscribe (initClient none []) "presence" 5)
          "presence" 5) (ServerMessage.presence [])).2.filterMap
        invokedOf).map Prod.fst).count 5 = 1 := by
  have h := C10_subscribe_unsubscribe_semantics
    (subscribe (initClient none []) "presence" 5) (fun _ => false)
    (ServerMessage.presence []) 5 (by decide)
  exact ⟨h.1, h.2.2.1⟩

/-! ## C6 — selection_state fully replaces the local map -/

/-- C6: dispatching a `selection_state` message makes the local
`selectedPlanets` equal exactly the map carried in the message (when its
keys are distinct, as `Object.entries` of a JSON object guarantees), with
no dependence on the previous local state. -/
theorem C6_selection_state_replaces (st st2 : ProjState)
    (sel : List (String × List String)) (h : (sel.map Prod.fst).Nodup) :
    (onSelectionState sel st).selectedPlanets = sel ∧
    (onSelectionState sel st).selectedPlanets =
      (onSelectionState sel st2).selectedPlanets := by
  have hfold : sel.foldl (fun ac e => mapSet ac e.1 e.2) [] = sel := by
    simpa using foldl_mapSet_of_nodup sel [] (by simp) h
  constructor
  · show sel.foldl (fun ac e => mapSet ac e.1 e.2) [] = sel
    exact hfold
  · rfl

/-- Witness for C6: a prior local entry for `"p9"` disappears; the
message's entries become the whole map. -/
theorem C6_selection_state_replaces_witness :
    (onSelectionState [("p1", ["u1", "u2"]), ("p2", ["u3"])]
        ⟨[("p9", ["u9"])], none, none⟩).selectedPlanets =
      [("p1", ["u1", "u2"]), ("p2", ["u3"])] :=
  (C6_selection_state_replaces ⟨[("p9", ["u9"])], none, none⟩
    ⟨[], none, none⟩ [("p1", ["u1", "u2"]), ("p2", ["u3"])] (by decide)).1

end Exo
